import Mathlib

/-!
# msi-fan-control — verification of the specification against the source

Shallow embedding of the msi-fan-control repository (a Tauri/SvelteKit fan
control utility for MSI laptops).  The polling orchestrator, connection
recovery, cooler-boost toggle and visibility handling are embedded from
`src/src/routes/+page.svelte` (and its Svelte-5 variant with the
`STATS_INTERVAL` stats cadence).  The privileged sidecar's EC register
access (read-modify-write on the cooler-boost register, duty-to-RPM
estimation) is not part of the sources, so those two operations are
modelled from the specification's own description.
-/

/- ## EC accessor (modelled from the spec) -/

/-- Modelled from the spec: the single-bit modify step of the EC accessor's
`write_bit`.  The sidecar binary's source is absent from the repository;
per §4.2 the accessor must "read the current byte, modify only the target
bit, and write back the full byte".  `setBit b i v` is the modified byte:
bit `i` of `b` forced to `v`, all other bits of the 8-bit value kept. -/
def setBit (b : Nat) (i : Nat) (v : Bool) : Nat :=
  if v then b ||| 2 ^ i else b &&& (255 ^^^ 2 ^ i)

/-- The EC memory window: a 256-byte addressable region, one byte per
offset (spec §3: "offset: byte address in a 256-byte address space"). -/
def EcMem := Nat → Nat

/-- Modelled from the spec: `write_bit(offset, bit_index, value)` of the EC
accessor (§4.2) — a read-modify-write that reads the current byte at
`offset`, modifies only bit `bit`, and writes the full byte back, leaving
every other offset untouched. -/
def write_bit (mem : EcMem) (offset : Nat) (bit : Nat) (value : Bool) : EcMem :=
  fun a => if a = offset then setBit (mem offset) bit value else mem a

/-- The cooler-boost register offset, `0x98` (register map in the repo's
engineering analysis: "Cooler Boost | 0x98 | Bitfield | RW | Bit 7"). -/
def COOLER_BOOST_ADDR : Nat := 0x98

/- ## Duty-cycle to RPM estimation (modelled from the spec) -/

/-- Per-model maximum fan RPM; 6000 for the reference model (spec §4.1,
and the README's "maximum fan speed (~6000 RPM)"). -/
def RPM_MAX : Nat := 6000

/-- Modelled from the spec: duty-cycle-to-RPM estimation
`rpm ≈ duty * RPM_MAX / 150` (spec §4.1), with rounding to the nearest
integer as in the spec's scenario `round(75 × 6000 / 150)`. -/
def dutyToRpm (duty : Nat) : Nat := (duty * RPM_MAX + 75) / 150

/- ## UI data model, from `src/src/lib/types.ts` -/

/-- The `FanStatus` interface (types.ts / +page.svelte): the fan/thermal
snapshot returned by `get_status` and `start_sidecar`. -/
structure FanStatus where
  cpu_temp : Nat
  gpu_temp : Nat
  fan1_rpm : Nat
  fan2_rpm : Nat
  cooler_boost : Bool
  fan_mode : String
deriving Repr, DecidableEq

/-- The `SystemStats` interface (types.ts): non-critical system diagnostics
returned by `get_system_stats`. -/
structure SystemStats where
  memory_used : Nat
  memory_total : Nat
  swap_used : Nat
  swap_total : Nat
  cpu_global_frequency : Nat
deriving Repr, DecidableEq

/-- The `CpuCoreDetail` interface (types.ts): per-core data returned by
`get_cpu_details`. -/
structure CpuCoreDetail where
  name : String
  frequency : Nat
  usage : Nat
deriving Repr, DecidableEq

/- ## String containment, for the error classification in `poll` -/

/-- Whether `needle` occurs as a contiguous run inside the character list. -/
def charsInclude (needle : List Char) : List Char → Bool
  | [] => needle.isEmpty
  | c :: rest => needle.isPrefixOf (c :: rest) || charsInclude needle rest

/-- JS `String.prototype.includes`, used by the poll error handler as
`String(e).includes(...)`. -/
def strIncludes (hay needle : String) : Bool := charsInclude needle.toList hay.toList

/-- The reconnect classification of the `poll` catch handler in
`+page.svelte` (lines 89–93): an error whose string form contains
"Sidecar not running", "Broken pipe" or "timeout" denotes a lost sidecar
process or pipe and triggers auto-reconnect. -/
def isSidecarLostError (e : String) : Bool :=
  strIncludes e "Sidecar not running" || strIncludes e "Broken pipe" ||
    strIncludes e "timeout"

/-- The error-reset test on the `poll` success path (+page.svelte lines
78–84): a previously displayed connection error is cleared once
`get_status` succeeds again. -/
def isConnectionError (e : String) : Bool :=
  strIncludes e "Sidecar not running" || strIncludes e "Broken pipe"

/- ## Component state and poll-tick environment -/

/-- The reactive state of the page component that the polling and
visibility logic reads and writes (`+page.svelte` top-level `let`s).
`statsTick` exists only in the Svelte-5 variant of the page
(`src/unnamed/part_004`), where it drives the `STATS_INTERVAL` cadence;
the `+page.svelte` tick leaves it unchanged. -/
structure UiState where
  status : Option FanStatus
  systemStats : Option SystemStats
  cpuDetails : List CpuCoreDetail
  isCpuExpanded : Bool
  error : Option String
  isPolling : Bool
  lastPollTime : Nat
  statsTick : Nat
  silentBoost : Bool
deriving Repr, DecidableEq

/-- The outcomes of the awaited IPC calls available to one poll tick,
together with `Date.now()` at the end of the tick.  Each `Except` is the
result the corresponding `invoke` settles with (ok payload or thrown
error string). -/
structure TickEnv where
  getStatus : Except String FanStatus
  startSidecar : Except String FanStatus
  getSystemStats : Except String SystemStats
  getCpuDetails : Except String (List CpuCoreDetail)
  now : Nat
deriving Repr

/-- The function `connect()` (+page.svelte lines 52–60): `status = await
invoke("start_sidecar")`; on failure it sets `error` and rethrows.  The
returned Bool is whether the call succeeded (i.e. the JS promise
resolved rather than rejected). -/
def connect (s : UiState) (startSidecar : Except String FanStatus) : UiState × Bool :=
  match startSidecar with
  | .ok st => ({ s with status := some st }, true)
  | .error e => ({ s with error := some e }, false)

/-- The critical section of the poll tick (+page.svelte lines 73–104):
fetch `get_status`; on success store the fresh snapshot and clear a
stale connection error; on failure either auto-reconnect via `connect`
(when the error message marks a lost sidecar/pipe) or surface the error
string.  Returns the new state and whether a reconnect was attempted. -/
def pollCritical (s : UiState) (getStatus : Except String FanStatus)
    (startSidecar : Except String FanStatus) : UiState × Bool :=
  match getStatus with
  | .ok st =>
      let s1 := { s with status := some st }
      let s2 :=
        match s1.error with
        | some e => if isConnectionError e then { s1 with error := none } else s1
        | none => s1
      (s2, false)
  | .error e =>
      if isSidecarLostError e then
        ((connect s startSidecar).1, true)
      else
        ({ s with error := some e }, false)

/-- The non-critical section of the poll tick (+page.svelte lines
106–117): fetch `get_system_stats` and, when the CPU card is expanded,
`get_cpu_details`; any failure is only logged (the catch body does not
touch the state). -/
def pollStats (s : UiState) (getSystemStats : Except String SystemStats)
    (getCpuDetails : Except String (List CpuCoreDetail)) : UiState :=
  match getSystemStats with
  | .ok st =>
      let s1 := { s with systemStats := some st }
      if s1.isCpuExpanded then
        match getCpuDetails with
        | .ok ds => { s1 with cpuDetails := ds }
        | .error _ => s1
      else s1
  | .error _ => s

/-- Result of running one poll tick: the new state, whether the body ran
at all (the `if (!isPolling) return` guard), whether the non-critical
stats query was issued this tick, whether an auto-reconnect was
attempted, and whether the tick scheduled a successor via
`setTimeout(poll, 2000)`. -/
structure TickResult where
  state : UiState
  ranBody : Bool
  statsIssued : Bool
  reconnectAttempted : Bool
  scheduledNext : Bool
deriving Repr

/-- One tick of the `poll` closure in `+page.svelte` (lines 70–126):
guard on `isPolling`, critical status fetch, non-critical stats fetch
(every tick in this version), `lastPollTime = Date.now()`, and the
recursive `setTimeout` rescheduling. -/
def poll (s : UiState) (env : TickEnv) : TickResult :=
  if !s.isPolling then ⟨s, false, false, false, false⟩
  else
    let c := pollCritical s env.getStatus env.startSidecar
    let s2 := pollStats c.1 env.getSystemStats env.getCpuDetails
    let s3 := { s2 with lastPollTime := env.now }
    ⟨s3, true, true, c.2, s3.isPolling⟩

/-- The constant `STATS_INTERVAL` from the Svelte-5 page variant
(`src/unnamed/part_004`): system stats are polled every 3 fan ticks. -/
def STATS_INTERVAL : Nat := 3

/-- One tick of the `poll` closure in the Svelte-5 page variant
(`src/unnamed/part_004`, lines 55–106): same critical section, but the
non-critical stats fetch runs only every `STATS_INTERVAL`-th tick,
driven by `statsTick++` and a reset to 0 when the fetch fires. -/
def pollV2 (s : UiState) (env : TickEnv) : TickResult :=
  if !s.isPolling then ⟨s, false, false, false, false⟩
  else
    let c := pollCritical s env.getStatus env.startSidecar
    let t := c.1.statsTick + 1
    let s2 :=
      if STATS_INTERVAL ≤ t then
        pollStats { c.1 with statsTick := 0 } env.getSystemStats env.getCpuDetails
      else
        { c.1 with statsTick := t }
    let s3 := { s2 with lastPollTime := env.now }
    ⟨s3, true, decide (STATS_INTERVAL ≤ t), c.2, s3.isPolling⟩

/-- The semantics of `status = await <query>` inside a `try` block: a
successful query replaces the held snapshot wholesale with the complete
snapshot it returned; a thrown failure skips the assignment, leaving the
previous snapshot untouched. -/
def snapshotStep (prev : Option FanStatus) : Except String FanStatus → Option FanStatus
  | .ok st => some st
  | .error _ => prev

/-- The status-returning queries one `poll` tick of `+page.svelte`
issues, in program order: the critical `get_status`, then — only when it
failed with a lost-sidecar error — `connect`'s `start_sidecar`. -/
def statusQueryResults (s : UiState) (env : TickEnv) : List (Except String FanStatus) :=
  if !s.isPolling then []
  else
    match env.getStatus with
    | .ok st => [.ok st]
    | .error e =>
        if isSidecarLostError e then [.error e, env.startSidecar] else [.error e]

/- ## Polling-loop lifecycle (`startPolling` / `stopPolling`) -/

/-- The polling lifecycle state: the shared `isPolling` flag from
`+page.svelte`, plus a count of live recursive `poll` chains — the
quantity the exclusion claim is about.  A chain is started by
`startPolling` calling `poll()`; `stopPolling` clears the flag and
`clearTimeout`s the pending tick, after which the chain is dead (the
`if (!isPolling) return` guard stops any tick that still fires). -/
structure LoopState where
  isPolling : Bool
  activeLoops : Nat
deriving Repr, DecidableEq

/-- The function `startPolling()` (+page.svelte lines 66–68 and 128): `if (isPolling)
return;` — otherwise set the flag and start one new poll chain. -/
def startPolling (s : LoopState) : LoopState :=
  if s.isPolling then s else { isPolling := true, activeLoops := s.activeLoops + 1 }

/-- The function `stopPolling()` (+page.svelte lines 131–134): clear the flag and the
pending timer; the running chain cannot survive past its guard. -/
def stopPolling (_s : LoopState) : LoopState :=
  { isPolling := false, activeLoops := 0 }

/-- The lifecycle operations the component performs on the loop state. -/
inductive LoopOp where
  | start
  | stop
deriving Repr, DecidableEq

/-- Apply one lifecycle operation. -/
def applyLoopOp (s : LoopState) : LoopOp → LoopState
  | .start => startPolling s
  | .stop => stopPolling s

/-- Run a sequence of lifecycle operations. -/
def runLoopOps (s : LoopState) (ops : List LoopOp) : LoopState :=
  ops.foldl applyLoopOp s

/-- Initial lifecycle state: `isPolling = false`, no chain running. -/
def initLoopState : LoopState := ⟨false, 0⟩

/- ## Visibility-change handling -/

/-- Result of `handleVisibilityChange`: the final component state once
the handler (and the `connect().then/.catch` continuation it may start)
has settled, and whether a reconnect was attempted. -/
structure VisReport where
  state : UiState
  reconnectAttempted : Bool
deriving Repr

/-- The staleness threshold of `handleVisibilityChange` (+page.svelte
line 247): 10000 ms of wall-clock time since `lastPollTime`. -/
def STALE_THRESHOLD_MS : Nat := 10000

/-- The function `handleVisibilityChange()` (+page.svelte lines 240–268): when the
document is visible, compare `Date.now() - lastPollTime` against the
10-second threshold; when stale or not polling, stop polling, `connect()`
and restart polling whether or not the reconnect succeeded; when healthy,
just (re)start polling.  `hidden` is `document.hidden`; `startSidecar`
is the outcome `connect`'s `invoke("start_sidecar")` settles with. -/
def handleVisibilityChange (s : UiState) (hidden : Bool) (now : Nat)
    (startSidecar : Except String FanStatus) : VisReport :=
  if hidden then ⟨s, false⟩
  else
    let timeSinceLastPoll := now - s.lastPollTime
    let isStale := decide (STALE_THRESHOLD_MS < timeSinceLastPoll)
    if isStale || !s.isPolling then
      let s1 := { s with isPolling := false }
      let s2 := (connect s1 startSidecar).1
      ⟨{ s2 with isPolling := true }, true⟩
    else
      ⟨{ s with isPolling := true }, false⟩

/- ## Cooler-boost toggle and the persisted preference -/

/-- The awaited calls `toggleCoolerBoost` can make, with the outcome each
one settles with if it is reached. -/
structure ToggleEnv where
  setCoolerBoost : Except String Unit
  setFanSpeed : Except String Unit
  getStatus : Except String FanStatus
deriving Repr

/-- Result of `toggleCoolerBoost`: the component state it touches, the
checkbox state after the handler (the browser had set it to the clicked
value; the catch path reverts it), and the value of the persisted
`localStorage` key "cooler_boost" after the `finally` block. -/
structure ToggleResult where
  status : Option FanStatus
  silentBoost : Bool
  checkboxChecked : Bool
  storedCoolerBoost : Option String
deriving Repr, DecidableEq

/-- The function `toggleCoolerBoost(e)` (+page.svelte lines 169–193): try
`set_cooler_boost(newState)`; when disabling also `set_fan_speed(70)` and
set `silentBoost`; refresh `status`; on any failure revert the checkbox;
in `finally`, always persist `String(newState)` under "cooler_boost". -/
def toggleCoolerBoost (status0 : Option FanStatus) (silentBoost0 : Bool)
    (newState : Bool) (env : ToggleEnv) : ToggleResult :=
  let stored := some (toString newState)
  match env.setCoolerBoost with
  | .error _ => ⟨status0, silentBoost0, !newState, stored⟩
  | .ok _ =>
      if !newState then
        match env.setFanSpeed with
        | .error _ => ⟨status0, silentBoost0, !newState, stored⟩
        | .ok _ =>
            match env.getStatus with
            | .error _ => ⟨status0, true, !newState, stored⟩
            | .ok st => ⟨some st, true, newState, stored⟩
      else
        match env.getStatus with
        | .error _ => ⟨status0, false, !newState, stored⟩
        | .ok st => ⟨some st, false, newState, stored⟩

/-- The cooler-boost restore step of `onMount` (+page.svelte lines
281–289): `invoke("set_cooler_boost", { enabled: true })` is issued at
startup exactly when the persisted "cooler_boost" value is the string
"true". -/
def restoreCoolerBoostOnMount (stored : Option String) : Bool :=
  match stored with
  | some v => v == "true"
  | none => false

/- ## Event-loop model of the poll loop's scheduling -/

/-- A pending activity of the browser event loop belonging to the poll
loop.  The `poll` body of `+page.svelte` (lines 70–126) is cut at its
`await` points into three synchronous segments; between segments the
loop holds a pending continuation.  `chain` numbers the poll chains
created by `startPolling` calls over the component's lifetime, `tick`
the tick within a chain.
* `timer c n` — the `setTimeout(poll, 2000)` callback armed at the end
  of tick `n - 1` of chain `c` (cancellable by `clearTimeout`);
* `resumeCritical c n` — tick `n` is suspended inside its awaited
  critical section (`await invoke("get_status")`, plus any reconnect
  I/O, folded into one resumption);
* `resumeStats c n` — tick `n` is suspended inside its awaited
  non-critical section (`await invoke("get_system_stats")`). -/
inductive Pending where
  | timer (chain tick : Nat)
  | resumeCritical (chain tick : Nat)
  | resumeStats (chain tick : Nat)
deriving Repr, DecidableEq

/-- Observable events of the poll loop: a tick entering its body past
the `isPolling` guard, its critical await resolving, and its body
running to completion (the statement after the last await). -/
inductive Ev where
  | tickStart (chain tick : Nat)
  | criticalDone (chain tick : Nat)
  | tickEnd (chain tick : Nat)
deriving Repr, DecidableEq

/-- The (chain, tick) a poll event belongs to. -/
def Ev.key : Ev → Nat × Nat
  | .tickStart c n => (c, n)
  | .criticalDone c n => (c, n)
  | .tickEnd c n => (c, n)

/-- State of the event-loop model: the shared `isPolling` flag, a fresh
chain counter, the pending timers and continuations, and the trace of
events emitted so far. -/
structure Sched where
  isPolling : Bool
  nextChain : Nat
  pending : List Pending
  trace : List Ev
deriving Repr, DecidableEq

/-- What can happen next: the UI calls `startPolling` or `stopPolling`,
or the event loop fires one pending item (`run p` is a no-op when `p` is
not pending) — timer expiry and I/O completion order is chosen by the
environment, not the program. -/
inductive Act where
  | start
  | stop
  | run (p : Pending)
deriving Repr, DecidableEq

/-- Whether a pending item is a cancellable `setTimeout` timer. -/
def isTimer : Pending → Bool
  | .timer _ _ => true
  | _ => false

/-- One step of the event loop, embedding the scheduling-relevant source:
* `start` — `startPolling()`: `if (isPolling) return;` else set the flag
  and call `poll()`, which synchronously runs to its first await: it
  passes the `if (!isPolling) return` guard, emits `tickStart`, and
  suspends in the critical section of tick 0 of a fresh chain;
* `stop` — `stopPolling()`: clear the flag and `clearTimeout` the armed
  timer.  (The source clears only the most recently armed `pollTimer`;
  the model cancels every pending timer — an over-approximation that
  only makes overlap harder, never easier.)  In-flight await resumptions
  cannot be cancelled, exactly as in the source;
* `run (timer c n)` — the `setTimeout` callback re-enters `poll`: the
  `if (!isPolling) return` guard either kills the chain or the tick
  starts and suspends in its critical section;
* `run (resumeCritical c n)` — the critical await resolves and the body
  runs on to the stats await (no guard between the awaits in the
  source);
* `run (resumeStats c n)` — the stats await resolves and the body
  completes (`lastPollTime = Date.now()`); its last statement arms
  `setTimeout(poll, 2000)` for tick `n + 1` — but only
  `if (isPolling)`. -/
def schedStep (s : Sched) : Act → Sched
  | .start =>
      if s.isPolling then s
      else
        { isPolling := true, nextChain := s.nextChain + 1,
          pending := s.pending ++ [.resumeCritical s.nextChain 0],
          trace := s.trace ++ [.tickStart s.nextChain 0] }
  | .stop =>
      { s with isPolling := false,
               pending := s.pending.filter (fun p => !isTimer p) }
  | .run p =>
      if p ∈ s.pending then
        let s0 := { s with pending := s.pending.erase p }
        match p with
        | .timer c n =>
            if s0.isPolling then
              { s0 with pending := s0.pending ++ [.resumeCritical c n],
                        trace := s0.trace ++ [.tickStart c n] }
            else s0
        | .resumeCritical c n =>
            { s0 with pending := s0.pending ++ [.resumeStats c n],
                      trace := s0.trace ++ [.criticalDone c n] }
        | .resumeStats c n =>
            if s0.isPolling then
              { s0 with pending := s0.pending ++ [.timer c (n + 1)],
                        trace := s0.trace ++ [.tickEnd c n] }
            else
              { s0 with trace := s0.trace ++ [.tickEnd c n] }
      else s

/-- The event-loop state before the component starts polling. -/
def initSched : Sched := ⟨false, 0, [], []⟩

/-- Run a sequence of actions through the event loop. -/
def runActs (s : Sched) (as : List Act) : Sched := as.foldl schedStep s

/-- The claim's "no two ticks ever overlap", on a trace: between two
events of one tick there is never an event of a different tick. -/
def TicksDontOverlapIn (tr : List Ev) : Prop :=
  ∀ (p q r : Nat) (a b c : Ev),
    tr.get? p = some a → tr.get? q = some b → tr.get? r = some c →
    p < q → q < r → a.key = c.key → b.key = a.key

/-- The interleaving exhibited by `refresh()` (or the visibility
handler's stale path): `stopPolling(); ...; startPolling()` runs while
tick 0 of chain 0 is suspended in its awaited `get_status`; afterwards
the old tick's await resolves and its body runs to completion beside the
new chain. -/
def demoActs : List Act :=
  [.start, .stop, .start, .run (.resumeCritical 0 0), .run (.resumeStats 0 0)]

/-- The events of `n` completed, uninterrupted ticks of chain 0 (used
only to characterise the reachable states of the event loop). -/
def chainTrace : Nat → List Ev
  | 0 => []
  | n + 1 => chainTrace n ++ [.tickStart 0 n, .criticalDone 0 n, .tickEnd 0 n]

/-- Where an undisturbed single-chain run of the loop currently stands:
armed timer for tick `n`, or tick `n` suspended at one of its awaits. -/
inductive Stage where
  | armed (n : Nat)
  | inCritical (n : Nat)
  | inStats (n : Nat)
deriving Repr, DecidableEq

/-- The pending item of a stage of an undisturbed run. -/
def Stage.pend : Stage → List Pending
  | .armed n => [.timer 0 n]
  | .inCritical n => [.resumeCritical 0 n]
  | .inStats n => [.resumeStats 0 n]

/-- The emitted trace of a stage of an undisturbed run. -/
def Stage.emitted : Stage → List Ev
  | .armed n => chainTrace n
  | .inCritical n => chainTrace n ++ [.tickStart 0 n]
  | .inStats n => chainTrace n ++ [.tickStart 0 n, .criticalDone 0 n]

/-- Invariant of an undisturbed run: the flag is set, one chain exists,
and exactly one pending item — the continuation of the single chain —
remains, with the trace fully determined by its stage. -/
def GoodSched (s : Sched) : Prop :=
  s.isPolling = true ∧ s.nextChain = 1 ∧
    ∃ st : Stage, s.pending = st.pend ∧ s.trace = st.emitted

/- ## Sample values for concrete witnesses -/

/-- A concrete fan snapshot. -/
def sampleStatus : FanStatus :=
  { cpu_temp := 50, gpu_temp := 45, fan1_rpm := 3000, fan2_rpm := 2800,
    cooler_boost := false, fan_mode := "auto" }

/-- A concrete component state: connected and polling. -/
def sampleUi : UiState :=
  { status := some sampleStatus, systemStats := none, cpuDetails := [],
    isCpuExpanded := false, error := none, isPolling := true,
    lastPollTime := 0, statsTick := 0, silentBoost := false }

/- ## Theorems: C1, C2 -/

/-- Bits below the written bit-7 are untouched by the modify step. -/
theorem setBit_testBit_of_lt (b : Nat) (v : Bool) (i : Nat) (hi : i < 7) :
    Nat.testBit (setBit b 7 v) i = Nat.testBit b i := by
  cases v with
  | true =>
      rw [setBit, if_pos rfl, Nat.testBit_or, Nat.testBit_two_pow_of_ne (by omega)]
      simp
  | false =>
      rw [setBit, if_neg (by simp)]
      rw [show (255 ^^^ 2 ^ 7 : Nat) = 2 ^ 7 - 1 by decide]
      rw [Nat.testBit_and, Nat.testBit_two_pow_sub_one]
      simp [hi]

/-- C1: every write to the cooler-boost register through `write_bit` on
bit 7 (enable or disable) preserves bits 0–6 of the register byte; in
particular, starting from `0b00000101`, enabling boost writes
`0b10000101` and disabling from there restores `0b00000101`. -/
theorem cooler_boost_rmw_preserves_low_bits :
    (∀ (mem : EcMem) (v : Bool) (i : Nat), i < 7 →
      Nat.testBit (write_bit mem COOLER_BOOST_ADDR 7 v COOLER_BOOST_ADDR) i =
        Nat.testBit (mem COOLER_BOOST_ADDR) i) ∧
    setBit 0b00000101 7 true = 0b10000101 ∧
    setBit 0b10000101 7 false = 0b00000101 := by
  refine ⟨?_, by decide, by decide⟩
  intro mem v i hi
  rw [write_bit, if_pos rfl]
  exact setBit_testBit_of_lt _ v i hi

/-- Witness for C1: a concrete write (enable on a byte `0b00000101` stored
at `0x98`) evaluated at bit 0. -/
theorem cooler_boost_rmw_preserves_low_bits_witness :
    Nat.testBit (write_bit (fun _ => 0b00000101) COOLER_BOOST_ADDR 7 true COOLER_BOOST_ADDR) 0 =
      Nat.testBit ((fun _ => 0b00000101 : EcMem) COOLER_BOOST_ADDR) 0 :=
  cooler_boost_rmw_preserves_low_bits.1 (fun _ => 0b00000101) true 0 (by decide)

/-- C2: the duty-to-RPM estimate `round(duty * RPM_MAX / 150)` with
`RPM_MAX = 6000` maps 0 to 0, 150 to `RPM_MAX`, 75 to 3000, and is
order-preserving on `0..150`. -/
theorem dutyToRpm_linear_monotone :
    dutyToRpm 0 = 0 ∧
    dutyToRpm 150 = RPM_MAX ∧
    dutyToRpm 75 = 3000 ∧
    (∀ a b : Nat, a < b → b ≤ 150 → dutyToRpm a ≤ dutyToRpm b) := by
  refine ⟨by decide, by decide, by decide, ?_⟩
  intro a b hab _
  simp only [dutyToRpm, RPM_MAX]
  omega

/-- Witness for C2: monotonicity evaluated at duty values 10 < 20. -/
theorem dutyToRpm_linear_monotone_witness :
    dutyToRpm 10 ≤ dutyToRpm 20 :=
  dutyToRpm_linear_monotone.2.2.2 10 20 (by decide) (by decide)

/- ## Helper lemmas about the tick sections -/

/-- The non-critical stats section touches only `systemStats` and
`cpuDetails`. -/
theorem pollStats_preserves (s : UiState) (a : Except String SystemStats)
    (b : Except String (List CpuCoreDetail)) :
    (pollStats s a b).error = s.error ∧
    (pollStats s a b).status = s.status ∧
    (pollStats s a b).statsTick = s.statsTick ∧
    (pollStats s a b).isPolling = s.isPolling ∧
    (pollStats s a b).isCpuExpanded = s.isCpuExpanded ∧
    (pollStats s a b).lastPollTime = s.lastPollTime := by
  cases a with
  | error e => simp [pollStats]
  | ok st =>
      cases b with
      | error e => by_cases h : s.isCpuExpanded <;> simp [pollStats, h]
      | ok ds => by_cases h : s.isCpuExpanded <;> simp [pollStats, h]

/-- A failed stats fetch leaves even `systemStats` and `cpuDetails`
untouched; a failed per-core fetch leaves `cpuDetails` untouched. -/
theorem pollStats_discards_failure (s : UiState) (e : String)
    (b : Except String (List CpuCoreDetail)) :
    pollStats s (.error e) b = s := by
  simp [pollStats]

/-- The critical section touches only `status` and `error`. -/
theorem pollCritical_preserves (s : UiState) (g r : Except String FanStatus) :
    (pollCritical s g r).1.systemStats = s.systemStats ∧
    (pollCritical s g r).1.cpuDetails = s.cpuDetails ∧
    (pollCritical s g r).1.statsTick = s.statsTick ∧
    (pollCritical s g r).1.isPolling = s.isPolling ∧
    (pollCritical s g r).1.isCpuExpanded = s.isCpuExpanded ∧
    (pollCritical s g r).1.lastPollTime = s.lastPollTime := by
  cases g with
  | ok st =>
      cases he : s.error with
      | none => simp [pollCritical, he]
      | some e => by_cases h : isConnectionError e <;> simp [pollCritical, he, h]
  | error e =>
      by_cases h : isSidecarLostError e
      · cases r <;> simp [pollCritical, connect, h]
      · simp [pollCritical, h]

/-- The critical section attempts a reconnect exactly when `get_status`
failed with a lost-sidecar error. -/
theorem pollCritical_reconnect_iff (s : UiState) (g r : Except String FanStatus) :
    (pollCritical s g r).2 = true ↔
      ∃ e, g = .error e ∧ isSidecarLostError e = true := by
  cases g with
  | ok st =>
      cases he : s.error with
      | none => simp [pollCritical, he]
      | some e => by_cases h : isConnectionError e <;> simp [pollCritical, he, h]
  | error e =>
      by_cases h : isSidecarLostError e
      · cases r <;> simp [pollCritical, connect, h]
      · simp [pollCritical, h]

/- ## Theorems: C3, C4 -/

/-- C3: whenever the staleness check runs (the handler fires with the
document visible), elapsed wall-clock time past the 10-second threshold
since the last successful poll forces a reconnect attempt,
unconditionally — for every state, including one that is still polling
with no observed failure; in particular a check at `T0 + 11s` with the
last poll at `T0` reconnects. -/
theorem staleness_forces_reconnect :
    (∀ (s : UiState) (now : Nat) (r : Except String FanStatus),
      STALE_THRESHOLD_MS < now - s.lastPollTime →
      (handleVisibilityChange s false now r).reconnectAttempted = true) ∧
    (∀ (s : UiState) (t0 : Nat) (r : Except String FanStatus),
      s.lastPollTime = t0 →
      (handleVisibilityChange s false (t0 + 11000) r).reconnectAttempted = true) := by
  have main : ∀ (s : UiState) (now : Nat) (r : Except String FanStatus),
      STALE_THRESHOLD_MS < now - s.lastPollTime →
      (handleVisibilityChange s false now r).reconnectAttempted = true := by
    intro s now r h
    cases r <;> simp [handleVisibilityChange, connect, h]
  exact ⟨main, fun s t0 r ht => main s (t0 + 11000) r (by
    simp only [STALE_THRESHOLD_MS, ht]; omega)⟩

/-- Witness for C3: a polling, healthy-looking state whose last poll was
at time 0, checked at 11000 ms. -/
theorem staleness_forces_reconnect_witness :
    STALE_THRESHOLD_MS < 11000 - sampleUi.lastPollTime ∧
    (handleVisibilityChange sampleUi false 11000 (.ok sampleStatus)).reconnectAttempted = true :=
  ⟨by decide, staleness_forces_reconnect.1 sampleUi 11000 (.ok sampleStatus) (by decide)⟩

/-- Projection: the stats query fires exactly on every third tick. -/
theorem pollV2_statsIssued (s : UiState) (env : TickEnv) (hp : s.isPolling = true) :
    (pollV2 s env).statsIssued = decide (STATS_INTERVAL ≤ s.statsTick + 1) := by
  have h := (pollCritical_preserves s env.getStatus env.startSidecar).2.2.1
  simp [pollV2, hp, h]

/-- Projection: `statsTick` counts modulo the cadence, resetting when the
stats query fires. -/
theorem pollV2_statsTick (s : UiState) (env : TickEnv) (hp : s.isPolling = true) :
    (pollV2 s env).state.statsTick =
      if STATS_INTERVAL ≤ s.statsTick + 1 then 0 else s.statsTick + 1 := by
  have h := (pollCritical_preserves s env.getStatus env.startSidecar).2.2.1
  by_cases hc : STATS_INTERVAL ≤ s.statsTick + 1
  · have h2 := (pollStats_preserves
      { (pollCritical s env.getStatus env.startSidecar).1 with statsTick := 0 }
      env.getSystemStats env.getCpuDetails).2.2.1
    simp [pollV2, hp, h, hc, h2]
  · simp [pollV2, hp, h, hc]

/-- Projection: the stats section never changes the surfaced error. -/
theorem pollV2_error (s : UiState) (env : TickEnv) (hp : s.isPolling = true) :
    (pollV2 s env).state.error = (pollCritical s env.getStatus env.startSidecar).1.error := by
  have h := (pollCritical_preserves s env.getStatus env.startSidecar).2.2.1
  by_cases hc : STATS_INTERVAL ≤ s.statsTick + 1
  · have h2 := (pollStats_preserves
      { (pollCritical s env.getStatus env.startSidecar).1 with statsTick := 0 }
      env.getSystemStats env.getCpuDetails).1
    simp [pollV2, hp, h, hc, h2]
  · simp [pollV2, hp, h, hc]

/-- Projection: the stats section never changes the snapshot. -/
theorem pollV2_status (s : UiState) (env : TickEnv) (hp : s.isPolling = true) :
    (pollV2 s env).state.status = (pollCritical s env.getStatus env.startSidecar).1.status := by
  have h := (pollCritical_preserves s env.getStatus env.startSidecar).2.2.1
  by_cases hc : STATS_INTERVAL ≤ s.statsTick + 1
  · have h2 := (pollStats_preserves
      { (pollCritical s env.getStatus env.startSidecar).1 with statsTick := 0 }
      env.getSystemStats env.getCpuDetails).2.1
    simp [pollV2, hp, h, hc, h2]
  · simp [pollV2, hp, h, hc]

/-- Projection: reconnection is decided by the critical section alone. -/
theorem pollV2_reconnect (s : UiState) (env : TickEnv) (hp : s.isPolling = true) :
    (pollV2 s env).reconnectAttempted = (pollCritical s env.getStatus env.startSidecar).2 := by
  simp [pollV2, hp]

/-- Projection: a failed stats query leaves `systemStats` and
`cpuDetails` untouched. -/
theorem pollV2_stats_failure_discarded (s : UiState) (env : TickEnv)
    (hp : s.isPolling = true) (e : String) (he : env.getSystemStats = .error e) :
    (pollV2 s env).state.systemStats = s.systemStats ∧
    (pollV2 s env).state.cpuDetails = s.cpuDetails := by
  have h1 := (pollCritical_preserves s env.getStatus env.startSidecar).1
  have h2 := (pollCritical_preserves s env.getStatus env.startSidecar).2.1
  have h := (pollCritical_preserves s env.getStatus env.startSidecar).2.2.1
  by_cases hc : STATS_INTERVAL ≤ s.statsTick + 1
  · rw [show (pollV2 s env).state.systemStats =
        (pollStats { (pollCritical s env.getStatus env.startSidecar).1 with statsTick := 0 }
          env.getSystemStats env.getCpuDetails).systemStats by simp [pollV2, hp, h, hc],
      show (pollV2 s env).state.cpuDetails =
        (pollStats { (pollCritical s env.getStatus env.startSidecar).1 with statsTick := 0 }
          env.getSystemStats env.getCpuDetails).cpuDetails by simp [pollV2, hp, h, hc],
      he, pollStats_discards_failure]
    exact ⟨h1, h2⟩
  · constructor <;> simp [pollV2, hp, h, hc, h1, h2]

/-- C4: in the stats-cadence page variant, the non-critical stats query
runs only every `STATS_INTERVAL = 3`-rd base tick; a stats failure is
discarded without touching connection-relevant state (`error`, `status`,
reconnection); and a reconnect is attempted only on a failure of the
critical status query. -/
theorem stats_cadence_and_noncritical_isolation :
    ∀ (s : UiState) (env : TickEnv), s.isPolling = true →
      ((pollV2 s env).statsIssued = decide (STATS_INTERVAL ≤ s.statsTick + 1)) ∧
      ((pollV2 s env).state.statsTick =
        if STATS_INTERVAL ≤ s.statsTick + 1 then 0 else s.statsTick + 1) ∧
      ((pollV2 s env).state.error = (pollCritical s env.getStatus env.startSidecar).1.error) ∧
      ((pollV2 s env).state.status = (pollCritical s env.getStatus env.startSidecar).1.status) ∧
      ((pollV2 s env).reconnectAttempted = (pollCritical s env.getStatus env.startSidecar).2) ∧
      (∀ e, env.getSystemStats = .error e →
        (pollV2 s env).state.systemStats = s.systemStats ∧
        (pollV2 s env).state.cpuDetails = s.cpuDetails) ∧
      ((pollV2 s env).reconnectAttempted = true → ∃ e, env.getStatus = .error e) := by
  intro s env hp
  refine ⟨pollV2_statsIssued s env hp, pollV2_statsTick s env hp, pollV2_error s env hp,
    pollV2_status s env hp, pollV2_reconnect s env hp,
    fun e he => pollV2_stats_failure_discarded s env hp e he, fun h => ?_⟩
  rw [pollV2_reconnect s env hp] at h
  obtain ⟨e, he, _⟩ := (pollCritical_reconnect_iff s env.getStatus env.startSidecar).mp h
  exact ⟨e, he⟩

/-- Witness for C4: a connected polling state at `statsTick = 2` (third
tick), with a failing stats query but a healthy critical query. -/
theorem stats_cadence_and_noncritical_isolation_witness :
    sampleUi.isPolling = true ∧
    (pollV2 { sampleUi with statsTick := 2 }
      { getStatus := .ok sampleStatus, startSidecar := .ok sampleStatus,
        getSystemStats := .error "stats backend gone",
        getCpuDetails := .error "stats backend gone", now := 2000 }).statsIssued = true := by
  constructor
  · decide
  · have h := stats_cadence_and_noncritical_isolation { sampleUi with statsTick := 2 }
      { getStatus := .ok sampleStatus, startSidecar := .ok sampleStatus,
        getSystemStats := .error "stats backend gone",
        getCpuDetails := .error "stats backend gone", now := 2000 } (by decide)
    rw [h.1]
    decide

/- ## Theorems: C5 (event-loop scheduling), C6, C7, C8 -/

/-- Length of the completed-ticks trace. -/
theorem chainTrace_length (n : Nat) : (chainTrace n).length = 3 * n := by
  induction n with
  | zero => rfl
  | succ m ih =>
      show (chainTrace m ++ _).length = 3 * (m + 1)
      rw [List.length_append, ih]
      simp only [List.length_cons, List.length_nil]
      omega

/-- Every event of the completed-ticks trace at position `p` belongs to
tick `p / 3` of chain 0. -/
theorem chainTrace_key (n p : Nat) (e : Ev)
    (h : (chainTrace n).get? p = some e) : e.key = (0, p / 3) := by
  induction n with
  | zero => simp [chainTrace] at h
  | succ m ih =>
      rw [show chainTrace (m + 1) =
        chainTrace m ++ [.tickStart 0 m, .criticalDone 0 m, .tickEnd 0 m] from rfl] at h
      by_cases hp : p < 3 * m
      · rw [List.get?_eq_getElem?,
          List.getElem?_append_left (by rw [chainTrace_length]; exact hp),
          ← List.get?_eq_getElem?] at h
        exact ih h
      · rw [List.get?_eq_getElem?,
          List.getElem?_append_right (by rw [chainTrace_length]; omega),
          ← List.get?_eq_getElem?, chainTrace_length] at h
        have hlen : p - 3 * m < 3 := by
          by_contra hge
          rw [List.get?_eq_none.mpr
            (by simp only [List.length_cons, List.length_nil]; omega)] at h
          cases h
        have h3 : p / 3 = m := by omega
        rcases (by omega : p - 3 * m = 0 ∨ p - 3 * m = 1 ∨ p - 3 * m = 2) with h0 | h0 | h0 <;>
          rw [h0] at h <;> simp at h <;> simp [← h, Ev.key, h3]

/-- Appending at most one tick's worth of tag-`n` events to `n` full
ticks keeps every position's event in tick `p / 3`. -/
theorem chainTrace_append_key (n p : Nat) (rest : List Ev) (e : Ev)
    (hrest : ∀ (i : Nat) (x : Ev), rest.get? i = some x → x.key = (0, n))
    (hlen : rest.length ≤ 3)
    (h : (chainTrace n ++ rest).get? p = some e) : e.key = (0, p / 3) := by
  by_cases hp : p < 3 * n
  · rw [List.get?_eq_getElem?,
      List.getElem?_append_left (by rw [chainTrace_length]; exact hp),
      ← List.get?_eq_getElem?] at h
    exact chainTrace_key n p e h
  · rw [List.get?_eq_getElem?,
      List.getElem?_append_right (by rw [chainTrace_length]; omega),
      ← List.get?_eq_getElem?, chainTrace_length] at h
    have hi : p - 3 * n < rest.length := by
      by_contra hge
      rw [List.get?_eq_none.mpr (by omega)] at h
      cases h
    have h3 : p / 3 = n := by omega
    rw [hrest (p - 3 * n) e h, h3]

/-- Every event emitted by an undisturbed run at position `p` belongs to
tick `p / 3` of the single chain 0. -/
theorem stage_emitted_key (st : Stage) (p : Nat) (e : Ev)
    (h : st.emitted.get? p = some e) : e.key = (0, p / 3) := by
  cases st with
  | armed n => exact chainTrace_key n p e h
  | inCritical n =>
      refine chainTrace_append_key n p _ e ?_ (by simp) h
      intro i x hx
      match i with
      | 0 => simp at hx; simp [← hx, Ev.key]
      | j + 1 => simp at hx
  | inStats n =>
      refine chainTrace_append_key n p _ e ?_ (by simp) h
      intro i x hx
      match i with
      | 0 => simp at hx; simp [← hx, Ev.key]
      | 1 => simp at hx; simp [← hx, Ev.key]
      | j + 2 => simp at hx

/-- A trace whose `p`-th event always belongs to tick `p / 3` of one
chain has no overlapping ticks. -/
theorem key_char_no_overlap (tr : List Ev)
    (hk : ∀ (p : Nat) (e : Ev), tr.get? p = some e → e.key = (0, p / 3)) :
    TicksDontOverlapIn tr := by
  intro p q r a b c hpa hqb hrc hpq hqr hac
  have ha := hk p a hpa
  have hb := hk q b hqb
  have hc := hk r c hrc
  rw [ha, hc] at hac
  have h1 : p / 3 = r / 3 := by simpa using hac
  have h2 : q / 3 = p / 3 := by omega
  rw [hb, ha, h2]

/-- The invariant of an undisturbed run is preserved by every event-loop
firing: the matching continuation advances the stage; any other `run` is
a no-op. -/
theorem goodSched_step_run (s : Sched) (p : Pending) (h : GoodSched s) :
    GoodSched (schedStep s (.run p)) := by
  obtain ⟨hp, hn, st, hpend, htr⟩ := h
  cases st with
  | armed n =>
      by_cases hep : p = .timer 0 n
      · subst hep
        refine ⟨?_, ?_, .inCritical n, ?_, ?_⟩ <;>
          simp [schedStep, hpend, hp, hn, htr, Stage.pend, Stage.emitted,
            List.erase_cons_head]
      · have heq : schedStep s (.run p) = s := by
          simp [schedStep, hpend, hep, Stage.pend]
        rw [heq]
        exact ⟨hp, hn, .armed n, hpend, htr⟩
  | inCritical n =>
      by_cases hep : p = .resumeCritical 0 n
      · subst hep
        refine ⟨?_, ?_, .inStats n, ?_, ?_⟩ <;>
          simp [schedStep, hpend, hp, hn, htr, Stage.pend, Stage.emitted,
            List.erase_cons_head]
      · have heq : schedStep s (.run p) = s := by
          simp [schedStep, hpend, hep, Stage.pend]
        rw [heq]
        exact ⟨hp, hn, .inCritical n, hpend, htr⟩
  | inStats n =>
      by_cases hep : p = .resumeStats 0 n
      · subst hep
        refine ⟨?_, ?_, .armed (n + 1), ?_, ?_⟩ <;>
          simp [schedStep, hpend, hp, hn, htr, Stage.pend, Stage.emitted,
            chainTrace, List.erase_cons_head]
      · have heq : schedStep s (.run p) = s := by
          simp [schedStep, hpend, hep, Stage.pend]
        rw [heq]
        exact ⟨hp, hn, .inStats n, hpend, htr⟩

/-- The invariant holds along any environment schedule made only of
event-loop firings (no further `startPolling` / `stopPolling`). -/
theorem goodSched_runActs (ps : List Pending) :
    ∀ (s : Sched), GoodSched s → GoodSched (runActs s (ps.map Act.run)) := by
  induction ps with
  | nil => intro s h; exact h
  | cons p rest ih =>
      intro s h
      show GoodSched (List.foldl schedStep s (Act.run p :: rest.map Act.run))
      rw [List.foldl_cons]
      exact ih _ (goodSched_step_run s p h)

/-- Counterexample to C5 as stated: the poll loop CAN overlap its ticks.
In `demoActs`, a `stopPolling(); startPolling()` pair (as performed by
`refresh()` or the visibility handler's stale path) runs while tick
(0,0) is suspended in its awaited `get_status`; the old tick then
resumes beside the freshly started chain: the trace interleaves an event
of tick (1,0) strictly between two events of tick (0,0), and both chains
stay live afterwards (chain 1 in flight, chain 0 re-armed). -/
theorem poll_ticks_can_overlap :
    ¬ TicksDontOverlapIn (runActs initSched demoActs).trace ∧
    (runActs initSched demoActs).trace =
      [.tickStart 0 0, .tickStart 1 0, .criticalDone 0 0, .tickEnd 0 0] ∧
    (runActs initSched demoActs).pending = [.resumeCritical 1 0, .timer 0 1] := by
  refine ⟨?_, by decide, by decide⟩
  intro h
  have hcontra := h 0 1 2 (.tickStart 0 0) (.tickStart 1 0) (.criticalDone 0 0)
    (by decide) (by decide) (by decide) (by decide) (by decide) (by decide)
  exact absurd hcontra (by decide)

/-- C5 (amended): within a single uninterrupted run of the polling loop
— one `startPolling`, and no further `startPolling`/`stopPolling` while
a tick's awaited I/O is in flight — however the event loop orders the
pending timer expiries and I/O completions, no two poll ticks ever
overlap, and at most one continuation of the single chain is ever
pending (the next tick's timer is armed only by the last statement of
the current tick's body). -/
theorem poll_ticks_never_overlap_uninterrupted :
    ∀ (ps : List Pending),
      TicksDontOverlapIn (runActs (schedStep initSched .start) (ps.map Act.run)).trace ∧
      (runActs (schedStep initSched .start) (ps.map Act.run)).pending.length ≤ 1 := by
  intro ps
  have hg : GoodSched (schedStep initSched .start) := by
    refine ⟨?_, ?_, .inCritical 0, ?_, ?_⟩ <;>
      simp [schedStep, initSched, Stage.pend, Stage.emitted, chainTrace]
  obtain ⟨h1, h2, st, hpend, htr⟩ := goodSched_runActs ps _ hg
  constructor
  · rw [htr]
    exact key_char_no_overlap _ (fun p e h => stage_emitted_key st p e h)
  · rw [hpend]
    cases st <;> simp [Stage.pend]

/-- Witness for the amended C5: the undisturbed schedule that resolves
tick (0,0)'s two awaits, with the theorem applied at the three concrete
trace positions 0 < 1 < 2 holding that tick's events. -/
theorem poll_ticks_never_overlap_uninterrupted_witness :
    (Ev.criticalDone 0 0).key = (Ev.tickStart 0 0).key :=
  (poll_ticks_never_overlap_uninterrupted
      [.resumeCritical 0 0, .resumeStats 0 0]).1
    0 1 2 (.tickStart 0 0) (.criticalDone 0 0) (.tickEnd 0 0)
    (by decide) (by decide) (by decide) (by decide) (by decide) (by decide)

/-- Projection: the stats section of the `+page.svelte` tick never
changes the snapshot. -/
theorem poll_status (s : UiState) (env : TickEnv) (hp : s.isPolling = true) :
    (poll s env).state.status = (pollCritical s env.getStatus env.startSidecar).1.status := by
  have h := (pollStats_preserves (pollCritical s env.getStatus env.startSidecar).1
    env.getSystemStats env.getCpuDetails).2.1
  simp [poll, hp, h]

/-- Projection: the stats section of the `+page.svelte` tick never
changes the surfaced error. -/
theorem poll_error (s : UiState) (env : TickEnv) (hp : s.isPolling = true) :
    (poll s env).state.error = (pollCritical s env.getStatus env.startSidecar).1.error := by
  have h := (pollStats_preserves (pollCritical s env.getStatus env.startSidecar).1
    env.getSystemStats env.getCpuDetails).1
  simp [poll, hp, h]

/-- Projection: the tick's reconnect flag is the critical section's. -/
theorem poll_reconnect (s : UiState) (env : TickEnv) (hp : s.isPolling = true) :
    (poll s env).reconnectAttempted = (pollCritical s env.getStatus env.startSidecar).2 := by
  simp [poll, hp]

/-- The snapshot after the critical section, by cases on the query
outcomes. -/
theorem pollCritical_status (s : UiState) (g r : Except String FanStatus) :
    (pollCritical s g r).1.status =
      (match g with
       | .ok st => some st
       | .error e =>
           if isSidecarLostError e then
             (match r with
              | .ok st => some st
              | .error _ => s.status)
           else s.status) := by
  cases g with
  | ok st =>
      cases he : s.error with
      | none => simp [pollCritical, he]
      | some e => by_cases h : isConnectionError e <;> simp [pollCritical, he, h]
  | error e =>
      by_cases h : isSidecarLostError e
      · cases r <;> simp [pollCritical, connect, h]
      · simp [pollCritical, h]

/-- C6: the snapshot held by the component after a poll tick is obtained
from the previous snapshot by applying, in order, each status-returning
query the tick issued, where a successful query replaces the snapshot
wholesale with the complete snapshot it returned and a failed query
leaves the previous snapshot entirely unchanged — there is no partial
update. -/
theorem snapshot_all_or_nothing :
    (∀ (s : UiState) (env : TickEnv),
      (poll s env).state.status = (statusQueryResults s env).foldl snapshotStep s.status) ∧
    (∀ (prev : Option FanStatus) (st : FanStatus), snapshotStep prev (.ok st) = some st) ∧
    (∀ (prev : Option FanStatus) (e : String), snapshotStep prev (.error e) = prev) := by
  refine ⟨?_, fun _ _ => rfl, fun _ _ => rfl⟩
  intro s env
  by_cases hp : s.isPolling
  · rw [poll_status s env hp, pollCritical_status]
    cases hg : env.getStatus with
    | ok st => simp [statusQueryResults, hp, hg, snapshotStep]
    | error e =>
        by_cases h : isSidecarLostError e
        · cases hr : env.startSidecar <;>
            simp [statusQueryResults, hp, hg, h, hr, snapshotStep]
        · simp [statusQueryResults, hp, hg, h, snapshotStep]
  · simp only [Bool.not_eq_true] at hp
    simp [poll, statusQueryResults, hp]

/-- C7: a failing critical status query is classified by its message:
one containing "Sidecar not running", "Broken pipe" or "timeout" (lost
helper process or pipe) triggers an automatic reconnect attempt; any
other failure is surfaced verbatim as the UI error state and no
reconnect is attempted. -/
theorem critical_failure_classification :
    (∀ (s : UiState) (env : TickEnv) (e : String),
      s.isPolling = true → env.getStatus = .error e →
      (isSidecarLostError e = true → (poll s env).reconnectAttempted = true) ∧
      (isSidecarLostError e = false →
        (poll s env).reconnectAttempted = false ∧
        (poll s env).state.error = some e)) ∧
    isSidecarLostError "Sidecar not running" = true ∧
    isSidecarLostError "Broken pipe" = true ∧
    isSidecarLostError "timeout" = true := by
  refine ⟨?_, by decide, by decide, by decide⟩
  intro s env e hp hg
  constructor
  · intro h
    rw [poll_reconnect s env hp]
    exact (pollCritical_reconnect_iff s env.getStatus env.startSidecar).mpr ⟨e, hg, h⟩
  · intro h
    rw [poll_reconnect s env hp, poll_error s env hp]
    simp [pollCritical, hg, h]

/-- Witness for C7: a polling state whose critical query fails with a
pure hardware error ("EC read failed"); it is surfaced verbatim and not
auto-retried. -/
theorem critical_failure_classification_witness :
    sampleUi.isPolling = true ∧
    (poll sampleUi
      { getStatus := .error "EC read failed", startSidecar := .ok sampleStatus,
        getSystemStats := .error "stats gone", getCpuDetails := .error "stats gone",
        now := 2000 }).state.error = some "EC read failed" := by
  refine ⟨rfl, ?_⟩
  have h := (critical_failure_classification.1 sampleUi
    { getStatus := .error "EC read failed", startSidecar := .ok sampleStatus,
      getSystemStats := .error "stats gone", getCpuDetails := .error "stats gone",
      now := 2000 } "EC read failed" rfl rfl).2 (by decide)
  exact h.2

/-- The loop-count invariant of the lifecycle state machine. -/
theorem runLoopOps_invariant (ops : List LoopOp) :
    ∀ (s : LoopState), s.activeLoops = (if s.isPolling then 1 else 0) →
      (runLoopOps s ops).activeLoops =
        (if (runLoopOps s ops).isPolling then 1 else 0) := by
  induction ops with
  | nil => intro s h; exact h
  | cons op rest ih =>
      intro s h
      show (runLoopOps (applyLoopOp s op) rest).activeLoops = _
      apply ih
      cases op with
      | start =>
          by_cases hp : s.isPolling
          · simpa [applyLoopOp, startPolling, hp] using h
          · simp [applyLoopOp, startPolling, hp] at h ⊢
            omega
      | stop => simp [applyLoopOp, stopPolling]

/-- C8: at most one polling loop is ever active: from the initial state,
any sequence of `startPolling`/`stopPolling` calls leaves at most one
live poll chain (exactly one while `isPolling` is set), and calling
`startPolling` while the flag is already set returns immediately,
changing nothing and starting no second loop. -/
theorem single_polling_loop :
    (∀ ops : List LoopOp,
      (runLoopOps initLoopState ops).activeLoops ≤ 1 ∧
      (runLoopOps initLoopState ops).activeLoops =
        (if (runLoopOps initLoopState ops).isPolling then 1 else 0)) ∧
    (∀ s : LoopState, s.isPolling = true → startPolling s = s) := by
  constructor
  · intro ops
    have h := runLoopOps_invariant ops initLoopState (by rfl)
    refine ⟨?_, h⟩
    rw [h]
    split <;> omega
  · intro s h
    simp [startPolling, h]

/-- Witness for C8: two consecutive `startPolling` calls leave one live
loop, and `startPolling` on an already-polling state is the identity. -/
theorem single_polling_loop_witness :
    (runLoopOps initLoopState [LoopOp.start, LoopOp.start]).activeLoops ≤ 1 ∧
    startPolling ⟨true, 1⟩ = ⟨true, 1⟩ :=
  ⟨(single_polling_loop.1 [LoopOp.start, LoopOp.start]).1,
    single_polling_loop.2 ⟨true, 1⟩ rfl⟩

/-- C9: when `set_cooler_boost` fails inside `toggleCoolerBoost`, the
checkbox is reverted to its previous state and the snapshot is
untouched, yet the `finally` block still persists the requested (failed)
new state under the "cooler_boost" localStorage key — so the persisted
preference diverges from the hardware state and, when it reads "true",
is re-applied by `onMount` at next startup. -/
theorem boost_failure_persists_requested_state :
    ∀ (status0 : Option FanStatus) (sb0 : Bool) (newState : Bool) (env : ToggleEnv)
      (e : String), env.setCoolerBoost = .error e →
      (toggleCoolerBoost status0 sb0 newState env).checkboxChecked = !newState ∧
      (toggleCoolerBoost status0 sb0 newState env).status = status0 ∧
      (toggleCoolerBoost status0 sb0 newState env).silentBoost = sb0 ∧
      (toggleCoolerBoost status0 sb0 newState env).storedCoolerBoost =
        some (toString newState) ∧
      (newState = true →
        restoreCoolerBoostOnMount
          (toggleCoolerBoost status0 sb0 newState env).storedCoolerBoost = true) := by
  intro status0 sb0 newState env e he
  refine ⟨by simp [toggleCoolerBoost, he], by simp [toggleCoolerBoost, he],
    by simp [toggleCoolerBoost, he], by simp [toggleCoolerBoost, he], ?_⟩
  intro hn
  subst hn
  have hst : (toggleCoolerBoost status0 sb0 true env).storedCoolerBoost =
      some (toString true) := by
    simp [toggleCoolerBoost, he]
  rw [hst]
  rfl

/-- Witness for C9: enabling boost on concrete state fails with an EC
write error; the checkbox reverts but "true" is persisted and would be
re-applied at startup. -/
theorem boost_failure_persists_requested_state_witness :
    (toggleCoolerBoost (some sampleStatus) false true
      { setCoolerBoost := .error "EC write failed", setFanSpeed := .ok (),
        getStatus := .ok sampleStatus }).checkboxChecked = false ∧
    (toggleCoolerBoost (some sampleStatus) false true
      { setCoolerBoost := .error "EC write failed", setFanSpeed := .ok (),
        getStatus := .ok sampleStatus }).storedCoolerBoost = some "true" := by
  have h := boost_failure_persists_requested_state (some sampleStatus) false true
    { setCoolerBoost := .error "EC write failed", setFanSpeed := .ok (),
      getStatus := .ok sampleStatus } "EC write failed" rfl
  exact ⟨h.1, h.2.2.2.1⟩

/-- C10: once `handleVisibilityChange` (and the continuation of the
`connect()` promise it may start) has settled with the document visible,
polling is active again in every branch: the stale-or-stopped path stops
polling, attempts a reconnect and restarts polling whether the reconnect
succeeded or failed, and the healthy path (re)starts polling directly;
the reconnect is attempted exactly on the stale-or-stopped condition. -/
theorem visibility_restores_polling :
    ∀ (s : UiState) (now : Nat) (r : Except String FanStatus),
      (handleVisibilityChange s false now r).state.isPolling = true ∧
      (handleVisibilityChange s false now r).reconnectAttempted =
        (decide (STALE_THRESHOLD_MS < now - s.lastPollTime) || !s.isPolling) := by
  intro s now r
  by_cases hc : STALE_THRESHOLD_MS < now - s.lastPollTime
  · cases r <;> simp [handleVisibilityChange, connect, hc]
  · by_cases hb : s.isPolling
    · simp [handleVisibilityChange, connect, hc, hb]
    · cases r <;> simp [handleVisibilityChange, connect, hc, hb]
